import Mathlib

/-!
Verification of the OCPP 1.6 charge-profile server (`server.py`, `solar_api.py`)
against its natural-language specification.

The Python source is shallowly embedded: JSON values become the `Json` type,
the smart-charging block of `ChargePoint.start` becomes the pure step function
`start_cycle` over the session state `CPState`, outbound transmissions become
an explicit trace of `WireEvent`s, and the outcome of each outbound call
(success, validation failure, transport failure) is an environment parameter.
-/

namespace OcppChargeProfile

/-! ## JSON data model

Python dictionaries/lists/scalars as produced by `json` parsing and by
`dataclasses.asdict`.  A mutual inductive keeps all recursion structural. -/

mutual

inductive Json where
  | obj : JsonFields → Json
  | str : String → Json
  | num : ℚ → Json
  | arr : JsonElems → Json
  | boolean : Bool → Json
  | null : Json

inductive JsonFields where
  | nil : JsonFields
  | cons : String → Json → JsonFields → JsonFields

inductive JsonElems where
  | nil : JsonElems
  | cons : Json → JsonElems → JsonElems

end

/-- Python `value is None`. -/
def Json.isNull : Json → Bool
  | .null => true
  | _ => false

/-- First binding of a key in an object body (parsed JSON objects have unique
keys, so first-match lookup is exact). -/
def JsonFields.get : JsonFields → String → Option Json
  | .nil, _ => none
  | .cons k v rest, key => if k == key then some v else rest.get key

/-! ## `remove_nones` and `snake_to_camel_case`

These two helpers are imported by `server.py` from the `ocpp` library, whose
code is not part of this repository.  Modelled from the spec: the codec
"omits fields whose value is absent/null (never emits null-valued keys)" and
"converts internal field names to the wire's camel-case convention",
recursively through nested objects and arrays. -/

mutual

/-- Modelled from the spec: `ocpp.charge_point.remove_nones`, which strips
every null-valued entry from objects and arrays, recursively. -/
def remove_nones : Json → Json
  | .obj kvs => .obj (removeNonesFields kvs)
  | .arr xs => .arr (removeNonesElems xs)
  | j => j

def removeNonesFields : JsonFields → JsonFields
  | .nil => .nil
  | .cons k v rest =>
      if v.isNull then removeNonesFields rest
      else .cons k (remove_nones v) (removeNonesFields rest)

def removeNonesElems : JsonElems → JsonElems
  | .nil => .nil
  | .cons x rest =>
      if x.isNull then removeNonesElems rest
      else .cons (remove_nones x) (removeNonesElems rest)

end

/-- snake_case to camelCase for a single key: a letter after an underscore is
upper-cased and the underscore is dropped. -/
def camelChars : List Char → List Char
  | [] => []
  | '_' :: c :: rest => c.toUpper :: camelChars rest
  | c :: rest => c :: camelChars rest

def snakeToCamelKey (s : String) : String := String.mk (camelChars s.data)

mutual

/-- Modelled from the spec: `ocpp.charge_point.snake_to_camel_case`, which
renames every object key from snake_case to camelCase, recursively. -/
def snake_to_camel_case : Json → Json
  | .obj kvs => .obj (snakeFields kvs)
  | .arr xs => .arr (snakeElems xs)
  | j => j

def snakeFields : JsonFields → JsonFields
  | .nil => .nil
  | .cons k v rest => .cons (snakeToCamelKey k) (snake_to_camel_case v) (snakeFields rest)

def snakeElems : JsonElems → JsonElems
  | .nil => .nil
  | .cons x rest => .cons (snake_to_camel_case x) (snakeElems rest)

end

mutual

/-- No null value anywhere inside an object field or array element. -/
def Json.noNulls : Json → Bool
  | .obj kvs => kvs.noNulls
  | .arr xs => xs.noNulls
  | _ => true

def JsonFields.noNulls : JsonFields → Bool
  | .nil => true
  | .cons _ v rest => !v.isNull && v.noNulls && rest.noNulls

def JsonElems.noNulls : JsonElems → Bool
  | .nil => true
  | .cons x rest => !x.isNull && x.noNulls && rest.noNulls

end

/-! ## `solar_api.read_power`

`read_power` parses the inverter response with a chain of Python `dict.get`
calls, each defaulting to `{}` (and `0` / `''` at the leaves).  Python raises
`AttributeError` when `.get` is invoked on a non-dict, which the embedding
returns as `Except.error`. -/

/-- Python `x.get(key, dflt)`: lookup with default on a dict, `AttributeError`
on anything else. -/
def dictGet (j : Json) (key : String) (dflt : Json) : Except String Json :=
  match j with
  | .obj kvs => .ok ((kvs.get key).getD dflt)
  | _ => .error "AttributeError"

/-- A chain `x.get(k1, {}).get(k2, {})...get(kn, dflt)` of Python lookups:
every intermediate default is the empty dict, the final default is `dflt`. -/
def getChain (j : Json) (keys : List String) (dflt : Json) : Except String Json :=
  match keys with
  | [] => .ok j
  | [k] => dictGet j k dflt
  | k :: k2 :: rest =>
      match dictGet j k (.obj .nil) with
      | .error e => .error e
      | .ok v => getChain v (k2 :: rest) dflt

/-- `solar_api.read_power` (src/solar_api.py lines 5-18), minus the HTTP GET:
the parsed response body `stats` is the argument, and the two `.get` chains
produce the instantaneous power and its unit string. -/
def read_power (stats : Json) : Except String (Json × Json) :=
  match getChain stats ["Body", "Data", "PAC", "Values", "1"] (Json.num 0) with
  | .error e => .error e
  | .ok current_power =>
      match getChain stats ["Body", "Data", "PAC", "Unit"] (Json.str "") with
      | .error e => .error e
      | .ok current_power_unit => .ok (current_power, current_power_unit)

/-- Every receiver of a `.get` along `keys` is a JSON object (missing keys are
fine: the chain then continues on empty-dict defaults). -/
def safeAt (j : Json) (keys : List String) : Bool :=
  match keys with
  | [] => true
  | k :: rest =>
      match j with
      | .obj kvs =>
          match kvs.get k with
          | some v => safeAt v rest
          | none => true
      | _ => false

/-! ## Charge point session (`server.py`)

The smart-charging block at the top of `ChargePoint.start` (src/server.py
lines 28-42) is embedded as a pure step function.  Everything the loop reads
from the environment in one iteration — the two `datetime.now().minute`
samples, the `read_power()` reading, the `utcnow` timestamp, the generated
unique ids, and the fate of each outbound call — is a field of `CycleInput`.
Outbound activity is recorded as a `WireEvent` trace. -/

/-- Mutable session fields of `ChargePoint` (src/server.py lines 25-26):
`_last_profile_sent` (a minute value, initially -1) and `_last_max_charge`
(the last applied cap, initially 0). -/
structure CPState where
  last_profile_sent : Int
  last_max_charge : ℚ
deriving DecidableEq

/-- Initial values of the session fields (src/server.py lines 25-26). -/
def initialState : CPState := ⟨-1, 0⟩

/-- A failure raised by an outbound call: `validate_payload` rejection, or a
transport-level error while awaiting `_send` (connection loss, timeout), or a
CallError surfaced by the library. -/
inductive CallFailure where
  | timeout : CallFailure
  | callError : CallFailure
  | connectionLost : CallFailure
  | validationError : CallFailure
deriving DecidableEq

/-- Environment-chosen fate of one outbound call: success, an exception from
`validate_payload` (before anything reaches the wire), or an exception from
`self._send` (after validation). -/
inductive CallOutcome where
  | ok : CallOutcome
  | validationFail : CallFailure → CallOutcome
  | sendFail : CallFailure → CallOutcome
deriving DecidableEq

/-- The OCPP Call built in `send_payload` (src/server.py lines 110-119). -/
structure Call where
  unique_id : String
  action : String
  payload : Json

/-- Observable wire-side activity of the session. -/
inductive WireEvent where
  | validated : Call → WireEvent
  | sent : Call → WireEvent
  | received : String → WireEvent

/-- The event is the transmission of a Call with the given action. -/
def WireEvent.isSentAction (a : String) : WireEvent → Bool
  | .sent c => c.action == a
  | _ => false

/-- The event is the receipt of an inbound frame. -/
def WireEvent.isReceived : WireEvent → Bool
  | .received _ => true
  | _ => false

/-- Kind and action of an event, forgetting ids and payload contents. -/
def WireEvent.label : WireEvent → String
  | .validated c => "validated " ++ c.action
  | .sent c => "sent " ++ c.action
  | .received _ => "received"

/-- `payload.__class__.__name__[:-7]` (src/server.py line 115): the action is
the payload class name with the `"Payload"` suffix dropped. -/
def actionName (className : String) : String := className.dropRight 7

/-- The Call built by `send_payload` (src/server.py lines 112-117):
camel-cased payload with null fields removed, action from the class name. -/
def mkCall (uid className : String) (payload : Json) : Call :=
  ⟨uid, actionName className, remove_nones (snake_to_camel_case payload)⟩

/-- `ChargePoint.send_payload` (src/server.py lines 110-119): builds the Call,
validates it, transmits it.  No response is awaited and no pending-call slot
is registered: the function returns as soon as `_send` completes.  The
`outcome` parameter decides whether `validate_payload` or `_send` raises. -/
def send_payload (uid className : String) (payload : Json) (outcome : CallOutcome) :
    Except CallFailure Unit × List WireEvent :=
  let call := mkCall uid className payload
  match outcome with
  | .ok => (.ok (), [.validated call, .sent call])
  | .validationFail e => (.error e, [])
  | .sendFail e => (.error e, [.validated call])

/-- `asdict(ClearChargingProfilePayload())`: the dataclass from the `ocpp`
library with every optional field left at `None` (src/server.py lines 81-85
construct it with no arguments). -/
def clearChargingProfilePayload : Json :=
  .obj (.cons "id" .null
    (.cons "connector_id" .null
      (.cons "charging_profile_purpose" .null
        (.cons "stack_level" .null .nil))))

/-- `asdict(SetChargingProfilePayload(...))` as built in
`set_smart_charge_profile` (src/server.py lines 87-108): connector 0 and the
literal `cs_charging_profiles` dictionary, with the cap, the reading's unit
and the `utcnow` timestamp spliced in. -/
def setChargingProfilePayload (max_charge : ℚ) (charge_unit now_iso : String) : Json :=
  .obj (.cons "connector_id" (.num 0)
    (.cons "cs_charging_profiles"
      (.obj (.cons "chargingProfileId" (.num 2)
        (.cons "stackLevel" (.num 2)
          (.cons "chargingProfilePurpose" (.str "ChargePointMaxProfile")
            (.cons "chargingProfileKind" (.str "Absolute")
              (.cons "chargingSchedule"
                (.obj (.cons "startSchedule" (.str (now_iso ++ "Z"))
                  (.cons "chargingRateUnit" (.str charge_unit)
                    (.cons "chargingSchedulePeriod"
                      (.arr (.cons
                        (.obj (.cons "startPeriod" (.num 0)
                          (.cons "limit" (.num max_charge) .nil)))
                        .nil))
                      (.cons "minChargingRate" (.num (1/10)) .nil)))))
                .nil))))))
      .nil))

/-- `ChargePoint.clear_smart_charge_profile` (src/server.py lines 81-85). -/
def clear_smart_charge_profile (uid : String) (outcome : CallOutcome) :
    Except CallFailure Unit × List WireEvent :=
  send_payload uid "ClearChargingProfilePayload" clearChargingProfilePayload outcome

/-- `ChargePoint.set_smart_charge_profile` (src/server.py lines 87-108). -/
def set_smart_charge_profile (uid : String) (max_charge : ℚ)
    (charge_unit now_iso : String) (outcome : CallOutcome) :
    Except CallFailure Unit × List WireEvent :=
  send_payload uid "SetChargingProfilePayload"
    (setChargingProfilePayload max_charge charge_unit now_iso) outcome

/-- The two clamp lines `if max_charge < 240: max_charge = 240`
(src/server.py lines 34-35). -/
def clampFloor (q : ℚ) : ℚ := if q < 240 then 240 else q

/-- Environment of one iteration of the `while True` loop in
`ChargePoint.start`: the two `datetime.now().minute` samples (line 31 and
line 39), the `read_power()` result as a number/unit pair, the `utcnow`
timestamp used in the profile, the two generated unique ids, and the fate of
each outbound call. -/
structure CycleInput where
  minute_at_check : Int
  minute_at_record : Int
  reading : ℚ × String
  now_iso : String
  uid_clear : String
  uid_set : String
  clear_outcome : CallOutcome
  set_outcome : CallOutcome

/-- The smart-charging block of `ChargePoint.start` (src/server.py lines
30-39): on a minute change, read solar power, clamp to the 240 floor, and if
the clamped cap differs from the last one, send the clear and then the set
call and record the new cap.  An exception from either call propagates (there
is no handler in `start`), leaving the session fields unchanged. -/
def start_cycle (st : CPState) (i : CycleInput) :
    Except CallFailure CPState × List WireEvent :=
  if st.last_profile_sent ≠ i.minute_at_check then
    let max_charge := clampFloor i.reading.1
    if max_charge ≠ st.last_max_charge then
      match clear_smart_charge_profile i.uid_clear i.clear_outcome with
      | (.error e, t1) => (.error e, t1)
      | (.ok _, t1) =>
          match set_smart_charge_profile i.uid_set max_charge i.reading.2
              i.now_iso i.set_outcome with
          | (.error e, t2) => (.error e, t1 ++ t2)
          | (.ok _, t2) => (.ok ⟨i.minute_at_record, max_charge⟩, t1 ++ t2)
    else (.ok ⟨i.minute_at_record, st.last_max_charge⟩, [])
  else (.ok st, [])

/-- One full iteration of the `while True` loop in `ChargePoint.start`
(src/server.py lines 29-42): the smart-charging block followed by
`self._connection.recv()`.  An exception in the block propagates and the
receive never happens. -/
def start_iteration (st : CPState) (i : CycleInput) (incoming : String) :
    Except CallFailure CPState × List WireEvent :=
  match start_cycle st i with
  | (.error e, t) => (.error e, t)
  | (.ok st2, t) => (.ok st2, t ++ [.received incoming])

/-- A finite prefix of the session's `while True` loop: one `CycleInput` and
one inbound frame per iteration.  An uncaught exception terminates the loop
(and with it the session): the remaining iterations never run. -/
def start_loop (st : CPState) : List (CycleInput × String) →
    Except CallFailure CPState × List WireEvent
  | [] => (.ok st, [])
  | (i, msg) :: rest =>
      match start_iteration st i msg with
      | (.error e, t) => (.error e, t)
      | (.ok st2, t) =>
          match start_loop st2 rest with
          | (r, ts) => (r, t ++ ts)

/-- A fully successful evaluation input: minute `m` for both clock samples, a
watt reading of `v`, fixed timestamp, ids and inbound frame. -/
def okInput (m : Int) (v : ℚ) : CycleInput × String :=
  (⟨m, m, (v, "W"), "2024-01-01T00:00:00", "10", "11", .ok, .ok⟩, "msg")

/-! ## Inbound handlers and the connection gatekeeper -/

/-- The `id_tag_info` dictionary of the StartTransaction response. -/
structure IdTagInfo where
  status : String
deriving DecidableEq

/-- `call_result.StartTransactionPayload` as returned by the handler. -/
structure StartTransactionResult where
  id_tag_info : IdTagInfo
  transaction_id : Int
deriving DecidableEq

/-- `ChargePoint.on_start_transaction` (src/server.py lines 74-79): ignores
all of its inputs and returns the fixed accepted payload with transaction id
1.  Extra keyword fields are the `kwargs` association list. -/
def on_start_transaction (_connector_id : Int) (_id_tag : String) (_meter_start : Int)
    (_timestamp : String) (_kwargs : List (String × Json)) : StartTransactionResult :=
  ⟨⟨"Accepted"⟩, 1⟩

/-- Python `path.strip('/')` (src/server.py line 143): drop leading and
trailing slash characters. -/
def pyStripSlashes (s : String) : String :=
  String.mk (((s.data.dropWhile (fun c => c == '/')).reverse.dropWhile
    (fun c => c == '/')).reverse)

/-- Modelled from the spec: the `websockets` library's subprotocol
negotiation, which `server.py` only observes through `websocket.subprotocol`.
The server advertises exactly `"ocpp1.6"` (src/server.py line 161), so the
negotiated subprotocol is `"ocpp1.6"` when the client requested it and absent
otherwise. -/
def negotiate (requested : List String) : Option String :=
  if requested.contains "ocpp1.6" then some "ocpp1.6" else none

/-- Result of the connection gatekeeper: either the socket is closed with no
session, or a `ChargePoint` session is created for the given id. -/
inductive ConnectResult where
  | closed : ConnectResult
  | session : String → ConnectResult
deriving DecidableEq

/-- `on_connect` (src/server.py lines 121-150): a missing
`Sec-WebSocket-Protocol` header (`requested_protocols = none`) closes the
connection; a falsy `websocket.subprotocol` (no match with the supported
`"ocpp1.6"`) closes the connection; otherwise a session is created for the
slash-stripped path. -/
def on_connect (requested_protocols : Option (List String)) (path : String) :
    ConnectResult :=
  match requested_protocols with
  | none => .closed
  | some reqs =>
      match negotiate reqs with
      | some _ => .session (pyStripSlashes path)
      | none => .closed

/-! ## Shared lemmas about the cycle -/

/-- No evaluation when the minute has not changed. -/
theorem start_cycle_skip (st : CPState) (i : CycleInput)
    (h : st.last_profile_sent = i.minute_at_check) :
    start_cycle st i = (.ok st, []) := by
  simp [start_cycle, h]

/-- Evaluation with an unchanged clamped cap: no calls, minute recorded. -/
theorem start_cycle_noChange (st : CPState) (i : CycleInput)
    (h1 : st.last_profile_sent ≠ i.minute_at_check)
    (h2 : clampFloor i.reading.1 = st.last_max_charge) :
    start_cycle st i = (.ok ⟨i.minute_at_record, st.last_max_charge⟩, []) := by
  simp [start_cycle, h1, h2]

/-- Evaluation with a changed clamped cap and both calls succeeding: the
clear pair is transmitted in order and the new cap and minute are recorded. -/
theorem start_cycle_change_ok (st : CPState) (i : CycleInput)
    (h1 : st.last_profile_sent ≠ i.minute_at_check)
    (h2 : clampFloor i.reading.1 ≠ st.last_max_charge)
    (h3 : i.clear_outcome = CallOutcome.ok)
    (h4 : i.set_outcome = CallOutcome.ok) :
    start_cycle st i =
      (.ok ⟨i.minute_at_record, clampFloor i.reading.1⟩,
        [.validated (mkCall i.uid_clear "ClearChargingProfilePayload" clearChargingProfilePayload),
         .sent (mkCall i.uid_clear "ClearChargingProfilePayload" clearChargingProfilePayload),
         .validated (mkCall i.uid_set "SetChargingProfilePayload"
           (setChargingProfilePayload (clampFloor i.reading.1) i.reading.2 i.now_iso)),
         .sent (mkCall i.uid_set "SetChargingProfilePayload"
           (setChargingProfilePayload (clampFloor i.reading.1) i.reading.2 i.now_iso))]) := by
  simp [start_cycle, h1, h2, h3, h4, clear_smart_charge_profile,
    set_smart_charge_profile, send_payload]

mutual

/-- Stripping nulls leaves no null anywhere. -/
theorem noNulls_remove_nones : ∀ j : Json, (remove_nones j).noNulls = true
  | .obj kvs => by simp [remove_nones, Json.noNulls, noNulls_removeNonesFields kvs]
  | .arr xs => by simp [remove_nones, Json.noNulls, noNulls_removeNonesElems xs]
  | .str s => rfl
  | .num q => rfl
  | .boolean b => rfl
  | .null => rfl

theorem noNulls_removeNonesFields : ∀ kvs : JsonFields,
    (removeNonesFields kvs).noNulls = true
  | .nil => rfl
  | .cons k v rest => by
      by_cases h : v.isNull = true
      · simp [removeNonesFields, h, noNulls_removeNonesFields rest]
      · have hv : (remove_nones v).isNull = false := by
          cases v <;> simp_all [remove_nones, Json.isNull]
        simp [removeNonesFields, h, JsonFields.noNulls, hv,
          noNulls_remove_nones v, noNulls_removeNonesFields rest]

theorem noNulls_removeNonesElems : ∀ xs : JsonElems,
    (removeNonesElems xs).noNulls = true
  | .nil => rfl
  | .cons x rest => by
      by_cases h : x.isNull = true
      · simp [removeNonesElems, h, noNulls_removeNonesElems rest]
      · have hx : (remove_nones x).isNull = false := by
          cases x <;> simp_all [remove_nones, Json.isNull]
        simp [removeNonesElems, h, JsonElems.noNulls, hx,
          noNulls_remove_nones x, noNulls_removeNonesElems rest]

end

/-- The clamped value never drops below 240. -/
theorem clampFloor_ge (q : ℚ) : 240 ≤ clampFloor q := by
  unfold clampFloor
  split
  · exact le_refl _
  · exact le_of_not_lt (by assumption)

/-! ## C5 — floor clamp -/

/-- C5: in every evaluation whose outbound calls succeed, the session's
standing cap becomes `clampFloor` of the reading: exactly 240 when the
reading is below 240, and the reading's own value when it is at least 240. -/
theorem C5_floor_clamp (st : CPState) (i : CycleInput)
    (h1 : st.last_profile_sent ≠ i.minute_at_check)
    (h3 : i.clear_outcome = CallOutcome.ok)
    (h4 : i.set_outcome = CallOutcome.ok) :
    (start_cycle st i).1 = .ok ⟨i.minute_at_record, clampFloor i.reading.1⟩ ∧
    (i.reading.1 < 240 → clampFloor i.reading.1 = 240) ∧
    (240 ≤ i.reading.1 → clampFloor i.reading.1 = i.reading.1) := by
  refine ⟨?_, fun h => by simp [clampFloor, h], fun h => by simp [clampFloor, not_lt.mpr h]⟩
  by_cases h2 : clampFloor i.reading.1 = st.last_max_charge
  · rw [start_cycle_noChange st i h1 h2, ← h2]
  · rw [start_cycle_change_ok st i h1 h2 h3 h4]

/-- Witness for C5 at a concrete reading of 100 W: the recorded cap is 240,
not 100. -/
theorem C5_witness :
    (start_cycle initialState ⟨0, 0, (100, "W"), "T", "1", "2", .ok, .ok⟩).1 =
      .ok ⟨0, clampFloor 100⟩ ∧
    ((100 : ℚ) < 240 → clampFloor 100 = 240) ∧
    ((240 : ℚ) ≤ 100 → clampFloor 100 = (100 : ℚ)) :=
  C5_floor_clamp initialState ⟨0, 0, (100, "W"), "T", "1", "2", .ok, .ok⟩
    (by decide) rfl rfl

/-! ## C6 — fixed StartTransaction response -/

/-- C6: the StartTransaction handler returns the fixed payload with
`id_tag_info.status = "Accepted"` and `transaction_id = 1` for every input,
so every invocation yields the same value and the id never increments. -/
theorem C6_start_transaction_fixed :
    ∀ (a : Int) (b : String) (c : Int) (d : String) (k : List (String × Json)),
      on_start_transaction a b c d k = ⟨⟨"Accepted"⟩, 1⟩ :=
  fun _ _ _ _ _ => rfl

/-! ## C7 — subprotocol gatekeeping -/

/-- C7: a connection with no requested subprotocol, or whose requested
subprotocols do not contain the supported `"ocpp1.6"`, is closed with no
session; a successful negotiation creates a session for the path stripped of
leading and trailing slashes. -/
theorem C7_gatekeeper (path : String) (reqs : List String) :
    on_connect none path = .closed ∧
    ("ocpp1.6" ∉ reqs → on_connect (some reqs) path = .closed) ∧
    ("ocpp1.6" ∈ reqs → on_connect (some reqs) path = .session (pyStripSlashes path)) := by
  refine ⟨rfl, fun h => ?_, fun h => ?_⟩
  · simp [on_connect, negotiate, List.elem_iff, h]
  · simp [on_connect, negotiate, List.elem_iff, h]

/-- Witness for C7: no header closes, an `ocpp2.0.1`-only client closes, and
an `ocpp1.6` client gets a session named by the stripped path. -/
theorem C7_witness :
    on_connect none "/cp1" = .closed ∧
    on_connect (some ["ocpp2.0.1"]) "/cp1" = .closed ∧
    on_connect (some ["ocpp1.6"]) "/cp1/" = .session (pyStripSlashes "/cp1/") :=
  ⟨(C7_gatekeeper "/cp1" ["ocpp2.0.1"]).1,
   (C7_gatekeeper "/cp1" ["ocpp2.0.1"]).2.1 (by decide),
   (C7_gatekeeper "/cp1/" ["ocpp1.6"]).2.2 (by decide)⟩

/-! ## C8 — validation before transmission, no null keys on the wire -/

/-- C8: every outbound Call of the send path carries the camel-cased payload
with null fields removed — it contains no null-valued keys at any depth — and
on a successful call the validation event strictly precedes the transmission;
for every outcome the trace is a prefix of validate-then-send, so nothing is
ever transmitted unvalidated. -/
theorem C8_send_path (uid className : String) (p : Json) :
    (send_payload uid className p .ok).2 =
      [.validated (mkCall uid className p), .sent (mkCall uid className p)] ∧
    (mkCall uid className p).payload.noNulls = true ∧
    (∀ oc : CallOutcome,
      (send_payload uid className p oc).2 = [] ∨
      (send_payload uid className p oc).2 = [.validated (mkCall uid className p)] ∨
      (send_payload uid className p oc).2 =
        [.validated (mkCall uid className p), .sent (mkCall uid className p)]) := by
  refine ⟨rfl, noNulls_remove_nones _, fun oc => ?_⟩
  cases oc with
  | ok => exact Or.inr (Or.inr rfl)
  | validationFail e => exact Or.inl rfl
  | sendFail e => exact Or.inr (Or.inl rfl)

/-! ## C10 — the first evaluation always sends a pair -/

/-- C10: a fresh session starts with cap 0 and last-evaluated minute -1, so
the first evaluation (any real minute value, calls succeeding) always takes
the change branch: the clamped reading is at least 240, hence distinct from
the initial cap 0, and exactly one clear and one set call are transmitted. -/
theorem C10_first_evaluation (i : CycleInput)
    (hm0 : 0 ≤ i.minute_at_check)
    (h3 : i.clear_outcome = CallOutcome.ok)
    (h4 : i.set_outcome = CallOutcome.ok) :
    initialState = ⟨-1, 0⟩ ∧
    clampFloor i.reading.1 ≠ initialState.last_max_charge ∧
    (start_cycle initialState i).1 = .ok ⟨i.minute_at_record, clampFloor i.reading.1⟩ ∧
    ((start_cycle initialState i).2).countP
      (fun e => e.isSentAction "ClearChargingProfile") = 1 ∧
    ((start_cycle initialState i).2).countP
      (fun e => e.isSentAction "SetChargingProfile") = 1 := by
  have h1 : initialState.last_profile_sent ≠ i.minute_at_check := by
    intro h
    rw [show initialState.last_profile_sent = -1 from rfl] at h
    omega
  have h2 : clampFloor i.reading.1 ≠ initialState.last_max_charge := by
    intro h
    rw [show initialState.last_max_charge = 0 from rfl] at h
    have := clampFloor_ge i.reading.1
    rw [h] at this
    norm_num at this
  rw [start_cycle_change_ok initialState i h1 h2 h3 h4]
  refine ⟨rfl, h2, rfl, ?_, ?_⟩ <;>
    (simp [List.countP, List.countP.go, WireEvent.isSentAction, mkCall, actionName]; decide)

/-- Witness for C10 at minute 0 with a 300 W reading. -/
theorem C10_witness :
    initialState = ⟨-1, 0⟩ ∧
    clampFloor 300 ≠ initialState.last_max_charge ∧
    (start_cycle initialState ⟨0, 0, (300, "W"), "T", "1", "2", .ok, .ok⟩).1 =
      .ok ⟨0, clampFloor 300⟩ ∧
    ((start_cycle initialState ⟨0, 0, (300, "W"), "T", "1", "2", .ok, .ok⟩).2).countP
      (fun e => e.isSentAction "ClearChargingProfile") = 1 ∧
    ((start_cycle initialState ⟨0, 0, (300, "W"), "T", "1", "2", .ok, .ok⟩).2).countP
      (fun e => e.isSentAction "SetChargingProfile") = 1 :=
  C10_first_evaluation ⟨0, 0, (300, "W"), "T", "1", "2", .ok, .ok⟩ (by decide) rfl rfl

/-! ## C1 — ordering of the clear/set pair -/

/-- C1 is refuted: in a concrete profile-changing iteration, the
SetChargingProfile call is transmitted before any inbound frame is received —
in particular before any response to the ClearChargingProfile call — so the
set goes out while the clear is still unresolved. -/
theorem C1_counterexample :
    (((start_iteration initialState ⟨0, 0, (300, "W"), "T", "1", "2", .ok, .ok⟩
        "resp").2).takeWhile (fun e => !e.isReceived)).countP
      (fun e => e.isSentAction "SetChargingProfile") = 1 ∧
    ((start_iteration initialState ⟨0, 0, (300, "W"), "T", "1", "2", .ok, .ok⟩
        "resp").2).countP (fun e => e.isReceived) = 1 := by
  decide

/-- C1 as amended: in every profile-changing iteration with both calls
succeeding, the clear call's transmission completes strictly before the set
call is transmitted (the two sends are sequential, in that order), but no
response to the clear is awaited: the only received frame of the iteration
comes after both transmissions, so the set is issued while the clear is still
unresolved. -/
theorem C1_sequential_transmission (st : CPState) (i : CycleInput) (msg : String)
    (h1 : st.last_profile_sent ≠ i.minute_at_check)
    (h2 : clampFloor i.reading.1 ≠ st.last_max_charge)
    (h3 : i.clear_outcome = CallOutcome.ok)
    (h4 : i.set_outcome = CallOutcome.ok) :
    (start_iteration st i msg).2 =
      [.validated (mkCall i.uid_clear "ClearChargingProfilePayload" clearChargingProfilePayload),
       .sent (mkCall i.uid_clear "ClearChargingProfilePayload" clearChargingProfilePayload),
       .validated (mkCall i.uid_set "SetChargingProfilePayload"
         (setChargingProfilePayload (clampFloor i.reading.1) i.reading.2 i.now_iso)),
       .sent (mkCall i.uid_set "SetChargingProfilePayload"
         (setChargingProfilePayload (clampFloor i.reading.1) i.reading.2 i.now_iso)),
       .received msg] := by
  unfold start_iteration
  rw [start_cycle_change_ok st i h1 h2 h3 h4]
  rfl

/-- Witness for the amended C1 at a concrete iteration. -/
theorem C1_witness :
    (start_iteration initialState ⟨0, 0, (300, "W"), "T", "1", "2", .ok, .ok⟩ "resp").2 =
      [.validated (mkCall "1" "ClearChargingProfilePayload" clearChargingProfilePayload),
       .sent (mkCall "1" "ClearChargingProfilePayload" clearChargingProfilePayload),
       .validated (mkCall "2" "SetChargingProfilePayload"
         (setChargingProfilePayload (clampFloor 300) "W" "T")),
       .sent (mkCall "2" "SetChargingProfilePayload"
         (setChargingProfilePayload (clampFloor 300) "W" "T")),
       .received "resp"] :=
  C1_sequential_transmission initialState ⟨0, 0, (300, "W"), "T", "1", "2", .ok, .ok⟩
    "resp" (by decide) (by decide) rfl rfl

/-! ## C2 — unit mismatch is not detected -/

/-- C2 is refuted: a cycle whose reading carries the unit `"A"` — not the
expected power unit `"W"` — still issues the ClearChargingProfile and
SetChargingProfile calls and updates the last-applied cap from 0 to 300. -/
theorem C2_counterexample :
    (start_cycle initialState ⟨0, 0, (300, "A"), "T", "1", "2", .ok, .ok⟩).1 =
      .ok ⟨0, 300⟩ ∧
    ((start_cycle initialState ⟨0, 0, (300, "A"), "T", "1", "2", .ok, .ok⟩).2).countP
      (fun e => e.isSentAction "ClearChargingProfile") = 1 ∧
    ((start_cycle initialState ⟨0, 0, (300, "A"), "T", "1", "2", .ok, .ok⟩).2).countP
      (fun e => e.isSentAction "SetChargingProfile") = 1 := by
  refine ⟨rfl, ?_, ?_⟩ <;> decide

/-- C2 as amended: the cycle never examines the unit string.  Its decision,
its resulting state and the kind/action sequence of its outbound activity are
identical for any two unit strings; the unit only appears verbatim as the
`chargingRateUnit` field inside the set payload. -/
theorem C2_unit_ignored (st : CPState) (mc mr : Int) (v : ℚ) (u1 u2 : String)
    (now uc us : String) (co so : CallOutcome) :
    (start_cycle st ⟨mc, mr, (v, u1), now, uc, us, co, so⟩).1 =
      (start_cycle st ⟨mc, mr, (v, u2), now, uc, us, co, so⟩).1 ∧
    ((start_cycle st ⟨mc, mr, (v, u1), now, uc, us, co, so⟩).2).map WireEvent.label =
      ((start_cycle st ⟨mc, mr, (v, u2), now, uc, us, co, so⟩).2).map WireEvent.label := by
  by_cases h1 : st.last_profile_sent ≠ mc
  · by_cases h2 : clampFloor v = st.last_max_charge
    · simp [start_cycle, h1, h2]
    · cases co <;> cases so <;>
        simp [start_cycle, h1, h2, clear_smart_charge_profile,
          set_smart_charge_profile, send_payload, WireEvent.label, mkCall]
  · simp [start_cycle, h1]

/-! ## C3 — a failed call aborts the cycle and kills the session -/

/-- C3 is refuted on its last part: when the clear call dies of connection
loss, the exception propagates out of `start` — the loop result is the error,
not a surviving session — and the next minute's evaluation never runs: no set
call is ever transmitted afterwards, so there is no retry. -/
theorem C3_counterexample :
    (start_loop initialState
      [(⟨0, 0, (300, "W"), "T", "1", "2", .sendFail .connectionLost, .ok⟩, "m1"),
       (⟨1, 1, (300, "W"), "T", "3", "4", .ok, .ok⟩, "m2")]).1 =
      .error CallFailure.connectionLost ∧
    ((start_loop initialState
      [(⟨0, 0, (300, "W"), "T", "1", "2", .sendFail .connectionLost, .ok⟩, "m1"),
       (⟨1, 1, (300, "W"), "T", "3", "4", .ok, .ok⟩, "m2")]).2).countP
      (fun e => e.isSentAction "SetChargingProfile") = 0 := by
  refine ⟨rfl, ?_⟩
  decide

/-- C3 as amended: failure of either outbound call aborts the remaining step
of the cycle — the set call is never transmitted — and the new cap is not
recorded; but the exception propagates and terminates the session loop, so
the remaining iterations never run and no state is ever recorded again. -/
theorem C3_failure_aborts (st : CPState) (i : CycleInput) (msg : String)
    (rest : List (CycleInput × String))
    (h1 : st.last_profile_sent ≠ i.minute_at_check)
    (h2 : clampFloor i.reading.1 ≠ st.last_max_charge)
    (h3 : i.clear_outcome ≠ CallOutcome.ok ∨ i.set_outcome ≠ CallOutcome.ok) :
    (∃ e, start_loop st ((i, msg) :: rest) = (.error e, (start_cycle st i).2)) ∧
    ((start_cycle st i).2).countP (fun e => e.isSentAction "SetChargingProfile") = 0 ∧
    (∀ st2, (start_loop st ((i, msg) :: rest)).1 ≠ .ok st2) := by
  have hcyc : ∃ e, (start_cycle st i).1 = Except.error e ∧
      ((start_cycle st i).2).countP (fun ev => ev.isSentAction "SetChargingProfile") = 0 := by
    cases hco : i.clear_outcome with
    | ok =>
        cases hso : i.set_outcome with
        | ok => simp [hco, hso] at h3
        | validationFail e =>
            refine ⟨e, ?_, ?_⟩ <;>
              (simp [start_cycle, h1, h2, hco, hso, clear_smart_charge_profile,
                set_smart_charge_profile, send_payload, List.countP, List.countP.go,
                WireEvent.isSentAction, mkCall, actionName]; try decide)
        | sendFail e =>
            refine ⟨e, ?_, ?_⟩ <;>
              (simp [start_cycle, h1, h2, hco, hso, clear_smart_charge_profile,
                set_smart_charge_profile, send_payload, List.countP, List.countP.go,
                WireEvent.isSentAction, mkCall, actionName]; try decide)
    | validationFail e =>
        refine ⟨e, ?_, ?_⟩ <;>
          simp [start_cycle, h1, h2, hco, clear_smart_charge_profile,
            send_payload, List.countP, List.countP.go]
    | sendFail e =>
        refine ⟨e, ?_, ?_⟩ <;>
          simp [start_cycle, h1, h2, hco, clear_smart_charge_profile,
            send_payload, List.countP, List.countP.go, WireEvent.isSentAction]
  obtain ⟨e, he, hcount⟩ := hcyc
  have hpair : start_cycle st i = (Except.error e, (start_cycle st i).2) := by
    rw [← he]
  have hloop : start_loop st ((i, msg) :: rest) = (.error e, (start_cycle st i).2) := by
    unfold start_loop start_iteration
    rw [hpair]
  refine ⟨⟨e, hloop⟩, hcount, fun st2 hbad => ?_⟩
  rw [hloop] at hbad
  exact Except.noConfusion hbad

/-- Witness for the amended C3: connection loss on the clear call at a fresh
session terminates the loop before the queued second iteration. -/
theorem C3_witness :
    (∃ e, start_loop initialState
        [(⟨0, 0, (300, "W"), "T", "1", "2", .sendFail .connectionLost, .ok⟩, "m1"),
         (⟨1, 1, (300, "W"), "T", "3", "4", .ok, .ok⟩, "m2")] =
      (.error e, (start_cycle initialState
        ⟨0, 0, (300, "W"), "T", "1", "2", .sendFail .connectionLost, .ok⟩).2)) ∧
    ((start_cycle initialState
        ⟨0, 0, (300, "W"), "T", "1", "2", .sendFail .connectionLost, .ok⟩).2).countP
      (fun e => e.isSentAction "SetChargingProfile") = 0 ∧
    (∀ st2, (start_loop initialState
        [(⟨0, 0, (300, "W"), "T", "1", "2", .sendFail .connectionLost, .ok⟩, "m1"),
         (⟨1, 1, (300, "W"), "T", "3", "4", .ok, .ok⟩, "m2")]).1 ≠ .ok st2) :=
  C3_failure_aborts initialState
    ⟨0, 0, (300, "W"), "T", "1", "2", .sendFail .connectionLost, .ok⟩ "m1"
    [(⟨1, 1, (300, "W"), "T", "3", "4", .ok, .ok⟩, "m2")]
    (by decide) (by decide) (Or.inl (by decide))

/-! ## C4 — hysteresis -/

/-- C4: an evaluation whose clamped reading equals the last cap issues no
calls; one whose clamped reading differs issues exactly one clear and one set
and records the new cap; and on the clamped sequence 300, 300, 300, 250 from
a fresh session exactly two (clear, set) pairs go out — one for the first
reading, none for the unchanged middle readings, one for the change to 250 —
ending with cap 250. -/
theorem C4_hysteresis :
    (∀ (st : CPState) (i : CycleInput),
      st.last_profile_sent ≠ i.minute_at_check →
      i.clear_outcome = CallOutcome.ok →
      i.set_outcome = CallOutcome.ok →
      (clampFloor i.reading.1 = st.last_max_charge →
        start_cycle st i = (.ok ⟨i.minute_at_record, st.last_max_charge⟩, [])) ∧
      (clampFloor i.reading.1 ≠ st.last_max_charge →
        (start_cycle st i).1 = .ok ⟨i.minute_at_record, clampFloor i.reading.1⟩ ∧
        ((start_cycle st i).2).countP (fun e => e.isSentAction "ClearChargingProfile") = 1 ∧
        ((start_cycle st i).2).countP (fun e => e.isSentAction "SetChargingProfile") = 1)) ∧
    ((start_loop initialState
        [okInput 0 300, okInput 1 300, okInput 2 300, okInput 3 250]).2).countP
      (fun e => e.isSentAction "SetChargingProfile") = 2 ∧
    ((start_loop initialState
        [okInput 0 300, okInput 1 300, okInput 2 300, okInput 3 250]).2).countP
      (fun e => e.isSentAction "ClearChargingProfile") = 2 ∧
    ((start_loop initialState [okInput 0 300]).2).countP
      (fun e => e.isSentAction "SetChargingProfile") = 1 ∧
    ((start_loop initialState [okInput 0 300, okInput 1 300, okInput 2 300]).2).countP
      (fun e => e.isSentAction "SetChargingProfile") = 1 ∧
    (start_loop initialState
        [okInput 0 300, okInput 1 300, okInput 2 300, okInput 3 250]).1 =
      .ok ⟨3, 250⟩ := by
  refine ⟨fun st i h1 h3 h4 => ⟨fun h2 => start_cycle_noChange st i h1 h2, fun h2 => ?_⟩,
    ?_, ?_, ?_, ?_, ?_⟩
  · rw [start_cycle_change_ok st i h1 h2 h3 h4]
    refine ⟨rfl, ?_, ?_⟩ <;>
      (simp [List.countP, List.countP.go, WireEvent.isSentAction, mkCall, actionName];
        decide)
  all_goals first | decide | rfl

/-- Witness for C4's quantified part at a concrete changing evaluation. -/
theorem C4_witness :
    (clampFloor 250 = (⟨3, 300⟩ : CPState).last_max_charge →
      start_cycle ⟨3, 300⟩ (okInput 4 250).1 = (.ok ⟨4, 300⟩, [])) ∧
    (clampFloor 250 ≠ (⟨3, 300⟩ : CPState).last_max_charge →
      (start_cycle ⟨3, 300⟩ (okInput 4 250).1).1 = .ok ⟨4, clampFloor 250⟩ ∧
      ((start_cycle ⟨3, 300⟩ (okInput 4 250).1).2).countP
        (fun e => e.isSentAction "ClearChargingProfile") = 1 ∧
      ((start_cycle ⟨3, 300⟩ (okInput 4 250).1).2).countP
        (fun e => e.isSentAction "SetChargingProfile") = 1) :=
  C4_hysteresis.1 ⟨3, 300⟩ (okInput 4 250).1 (by decide) rfl rfl

/-! ## C9 — totality of `read_power` -/

/-- A chain of lookups starting from the empty dict always succeeds. -/
theorem getChain_empty_obj : ∀ (keys : List String) (dflt : Json),
    ∃ v, getChain (Json.obj JsonFields.nil) keys dflt = Except.ok v
  | [], _ => ⟨_, rfl⟩
  | [_], d => ⟨d, rfl⟩
  | k :: k2 :: rest, d => by
      have ih := getChain_empty_obj (k2 :: rest) d
      simpa [getChain, dictGet, JsonFields.get] using ih

/-- When every receiver along the chain is an object, the chain succeeds. -/
theorem getChain_safe : ∀ (j : Json) (keys : List String) (dflt : Json),
    safeAt j keys = true → ∃ v, getChain j keys dflt = Except.ok v
  | j, [], _, _ => ⟨j, rfl⟩
  | j, [k], d, h => by
      cases j with
      | obj kvs => exact ⟨(kvs.get k).getD d, rfl⟩
      | str s => simp [safeAt] at h
      | num q => simp [safeAt] at h
      | arr xs => simp [safeAt] at h
      | boolean b => simp [safeAt] at h
      | null => simp [safeAt] at h
  | j, k :: k2 :: rest, d, h => by
      cases j with
      | obj kvs =>
          cases hg : kvs.get k with
          | some v =>
              have hs : safeAt v (k2 :: rest) = true := by
                simpa [safeAt, hg] using h
              have ih := getChain_safe v (k2 :: rest) d hs
              simpa [getChain, dictGet, hg] using ih
          | none =>
              have ih := getChain_empty_obj (k2 :: rest) d
              simpa [getChain, dictGet, hg] using ih
      | str s => simp [safeAt] at h
      | num q => simp [safeAt] at h
      | arr xs => simp [safeAt] at h
      | boolean b => simp [safeAt] at h
      | null => simp [safeAt] at h

/-- C9 is refuted: `read_power` is not total over arbitrary JSON bodies.
When `Body` maps to a string, the chained `.get` calls raise
`AttributeError` instead of returning the defaults. -/
theorem C9_counterexample :
    read_power (.obj (.cons "Body" (.str "oops") .nil)) = .error "AttributeError" ∧
    read_power (.obj (.cons "Body" (.str "oops") .nil)) ≠
      .ok (.num 0, .str "") :=
  ⟨rfl, fun h => Except.noConfusion h⟩

/-- C9 as amended: `read_power` is total over every response in which each
node traversed by the `Body.Data.PAC.Values.1` and `Body.Data.PAC.Unit`
chains is, when present, a JSON object; a wholly missing path yields the
defaults 0 and the empty string, which the server's clamp turns into a cap of
exactly 240. -/
theorem C9_read_power_total_on_objects (stats : Json)
    (hv : safeAt stats ["Body", "Data", "PAC", "Values", "1"] = true)
    (hu : safeAt stats ["Body", "Data", "PAC", "Unit"] = true) :
    (∃ p u, read_power stats = .ok (p, u)) ∧
    read_power (.obj .nil) = .ok (.num 0, .str "") ∧
    clampFloor 0 = 240 := by
  obtain ⟨p, hp⟩ := getChain_safe stats ["Body", "Data", "PAC", "Values", "1"] (Json.num 0) hv
  obtain ⟨u, hup⟩ := getChain_safe stats ["Body", "Data", "PAC", "Unit"] (Json.str "") hu
  exact ⟨⟨p, u, by simp [read_power, hp, hup]⟩, rfl, by decide⟩

/-- Witness for the amended C9 at a response with an empty `Body` object. -/
theorem C9_witness :
    (∃ p u, read_power (.obj (.cons "Body" (.obj .nil) .nil)) = .ok (p, u)) ∧
    read_power (.obj .nil) = .ok (.num 0, .str "") ∧
    clampFloor 0 = 240 :=
  C9_read_power_total_on_objects (.obj (.cons "Body" (.obj .nil) .nil))
    (by decide) (by decide)

end OcppChargeProfile
